import Mathlib

/-!
Shallow embedding of the `cfloader` crate (Crazyflie bootloader flasher).

The embedding covers the packet codec (`src/cfloader/src/packets.rs`), the
reliable link transport (`src/cfloader/src/bllink.rs`) and the bootloader
command layer (`src/cfloader/src/bootloader.rs`).

Modelling conventions:
- Bytes are `Nat` values below 256; byte buffers are `List Nat`.
- Rust functions that can `panic!` return a result type with a dedicated
  `panicked` constructor; a slice index out of bounds is a panic.
- The radio driver primitive `send_packet` is modelled as a function
  `Driver : Nat → Option (Bool × List Nat)` from the index of the call to
  the acknowledgment flag and the returned payload; `none` models a radio
  error (the `Err` branch of the Rust driver call).
- Wall-clock timeouts (`start_time.elapsed() < timeout_duration`) are
  modelled by a fuel parameter bounding the number of iterations of the
  corresponding `while` loop.
- Every transmitted frame is collected in a log (a `List (List Nat)`), so
  that statements about which packets reach the radio can be made.
-/

namespace Cfloader

/-- Equality of `Except` values is decidable when it is on both sides. -/
instance {ε α : Type} [DecidableEq ε] [DecidableEq α] : DecidableEq (Except ε α) := fun
  | .error e₁, .error e₂ => decidable_of_iff (e₁ = e₂) (by simp)
  | .error _, .ok _ => .isFalse (by simp)
  | .ok _, .error _ => .isFalse (by simp)
  | .ok a₁, .ok a₂ => decidable_of_iff (a₁ = a₂) (by simp)

/-- Rust `u16::from_le_bytes([b0, b1])` on byte values. -/
def u16le (b0 b1 : Nat) : Nat := b0 + 256 * b1

/-- Rust `u16::to_le_bytes` of a 16-bit value. -/
def toLe16 (n : Nat) : List Nat := [n % 256, n / 256 % 256]

/-- Outcome of a Rust constructor that either returns a value or panics. -/
inductive DecodeResult (α : Type) where
  | ok (value : α)
  | panicked
deriving DecidableEq

/-- Flash geometry snapshot, `packets.rs` lines 13-20. -/
structure InfoPacket where
  page_size : Nat
  n_buff_page : Nat
  n_flash_page : Nat
  flash_start : Nat
  cpu_id : List Nat
  version : Nat
deriving DecidableEq

namespace InfoPacket

/-- Rust `InfoPacket::from_bytes` (`packets.rs` lines 23-35): panics when the
buffer has fewer than 22 bytes, otherwise reads the fixed little-endian
layout. -/
def from_bytes (bytes : List Nat) : DecodeResult InfoPacket :=
  if bytes.length < 22 then .panicked
  else .ok
    { page_size := u16le (bytes.getD 1 0) (bytes.getD 2 0)
      n_buff_page := u16le (bytes.getD 3 0) (bytes.getD 4 0)
      n_flash_page := u16le (bytes.getD 5 0) (bytes.getD 6 0)
      flash_start := u16le (bytes.getD 7 0) (bytes.getD 8 0)
      cpu_id := [bytes.getD 9 0, bytes.getD 10 0, bytes.getD 11 0, bytes.getD 12 0,
                 bytes.getD 13 0, bytes.getD 14 0, bytes.getD 15 0, bytes.getD 16 0,
                 bytes.getD 17 0, bytes.getD 18 0, bytes.getD 19 0, bytes.getD 20 0]
      version := bytes.getD 21 0 }

end InfoPacket

/-- RAM buffer read-back packet, `packets.rs` lines 79-83. -/
structure BufferReadPacket where
  page : Nat
  address : Nat
  data : List Nat
deriving DecidableEq

namespace BufferReadPacket

/-- Rust `BufferReadPacket::from_bytes` (`packets.rs` lines 86-95): panics
below 5 bytes. -/
def from_bytes (bytes : List Nat) : DecodeResult BufferReadPacket :=
  if bytes.length < 5 then .panicked
  else .ok
    { page := u16le (bytes.getD 1 0) (bytes.getD 2 0)
      address := u16le (bytes.getD 3 0) (bytes.getD 4 0)
      data := bytes.drop 5 }

end BufferReadPacket

/-- Flash write / flash status response, `packets.rs` lines 109-112. -/
structure FlashWriteResponse where
  done : Nat
  error : Nat
deriving DecidableEq

namespace FlashWriteResponse

/-- Rust `FlashWriteResponse::from_bytes` (`packets.rs` lines 115-123): panics
below 3 bytes. -/
def from_bytes (bytes : List Nat) : DecodeResult FlashWriteResponse :=
  if bytes.length < 3 then .panicked
  else .ok { done := bytes.getD 1 0, error := bytes.getD 2 0 }

end FlashWriteResponse

/-- Flash read-back packet, `packets.rs` lines 151-155. -/
structure FlashReadPacket where
  page : Nat
  address : Nat
  data : List Nat
deriving DecidableEq

namespace FlashReadPacket

/-- Rust `FlashReadPacket::from_bytes` (`packets.rs` lines 158-167): panics
below 5 bytes. -/
def from_bytes (bytes : List Nat) : DecodeResult FlashReadPacket :=
  if bytes.length < 5 then .panicked
  else .ok
    { page := u16le (bytes.getD 1 0) (bytes.getD 2 0)
      address := u16le (bytes.getD 3 0) (bytes.getD 4 0)
      data := bytes.drop 5 }

end FlashReadPacket

/-- Flash error codes, `packets.rs` lines 182-187. -/
inductive FlashError where
  | noError
  | addressOutOfBounds
  | flashEraseFailed
  | flashProgrammingFailed
deriving DecidableEq

/-- Rust `impl From<u8> for FlashError` (`packets.rs` lines 189-199):
unrecognized codes map to `NoError`. -/
def FlashError.fromByte (value : Nat) : FlashError :=
  match value with
  | 0 => .noError
  | 1 => .addressOutOfBounds
  | 2 => .flashEraseFailed
  | 3 => .flashProgrammingFailed
  | _ => .noError

/-! The link transport (`bllink.rs`). -/

/-- Radio driver: call index to (acknowledged, returned payload); `none`
models a driver-level radio error. -/
def Driver : Type := Nat → Option (Bool × List Nat)

/-- Transport-level and protocol-level error kinds produced by the embedded
code. `retriesExhausted` models the wrapping error built at the retry
ceiling (`Failed ... after 10 attempts: {last}`). -/
inductive Err where
  | radioErr
  | noAckTimeout
  | responseTimeout
  | invalidArgument
  | payloadTooLarge
  | retriesExhausted (last : Err)
deriving DecidableEq

/-- Rust `MAX_RETRIES` (`bllink.rs` line 17). -/
def MAX_RETRIES : Nat := 10

/-- Ack phase shared by `try_request` and `try_request_match_response`
(`bllink.rs` lines 86-101 and 134-149): repeatedly transmit the request
until the driver acknowledges one send, whose payload becomes the candidate
answer. Returns (result, frames transmitted, next driver call index). -/
def ack_phase (drv : Driver) (data : List Nat) :
    Nat → Nat → Except Err (List Nat) × List (List Nat) × Nat
  | 0, k => (.error .noAckTimeout, [], k)
  | fuel + 1, k =>
    match drv k with
    | none => (.error .radioErr, [data], k + 1)
    | some (acked, response) =>
      if acked then (.ok response, [data], k + 1)
      else
        let rest := ack_phase drv data fuel (k + 1)
        (rest.1, data :: rest.2.1, rest.2.2)

/-- Poll phase shared by `try_request` and `try_request_match_response`
(`bllink.rs` lines 103-122 and 151-166): while the candidate answer does not
satisfy the match predicate, transmit the 1-byte `0xFF` poll frame and, on an
acknowledged exchange, replace the candidate with the latest payload; when
the fuel (time budget) runs out without a match the attempt fails with the
response-timeout error. -/
def poll_phase (drv : Driver) (expect : List Nat → Bool) :
    Nat → Nat → List Nat → Except Err (List Nat) × List (List Nat) × Nat
  | 0, k, answer =>
    (if expect answer then .ok answer else .error .responseTimeout, [], k)
  | fuel + 1, k, answer =>
    if expect answer then (.ok answer, [], k)
    else
      match drv k with
      | none => (.error .radioErr, [[0xff]], k + 1)
      | some (acked, newAnswer) =>
        let rest := poll_phase drv expect fuel (k + 1) (if acked then newAnswer else answer)
        (rest.1, [0xff] :: rest.2.1, rest.2.2)

/-- Rust `Bllink::try_request` (`bllink.rs` lines 128-169): one attempt with
the full-prefix match strategy (`answer.starts_with(data)`). -/
def try_request (drv : Driver) (data : List Nat) (ackFuel pollFuel k : Nat) :
    Except Err (List Nat) × List (List Nat) × Nat :=
  match ack_phase drv data ackFuel k with
  | (.error e, log, k₂) => (.error e, log, k₂)
  | (.ok answer, log, k₂) =>
    let rest := poll_phase drv (fun a => data.isPrefixOf a) pollFuel k₂ answer
    (rest.1, log ++ rest.2.1, rest.2.2)

/-- Match predicate of the partial-prefix strategy (`bllink.rs` line 104):
the answer has at least `matchLength` bytes and its first `matchLength`
bytes equal the first `matchLength` bytes of the request. -/
def match_expect (data : List Nat) (matchLength : Nat) (answer : List Nat) : Bool :=
  decide (matchLength ≤ answer.length) && (answer.take matchLength == data.take matchLength)

/-- Rust `Bllink::try_request_match_response` (`bllink.rs` lines 73-125):
validates `match_length` against the request length before any radio call,
then runs one attempt with the partial-prefix match strategy. -/
def try_request_match_response (drv : Driver) (data : List Nat)
    (matchLength ackFuel pollFuel k : Nat) :
    Except Err (List Nat) × List (List Nat) × Nat :=
  if matchLength > data.length then (.error .invalidArgument, [], k)
  else
    match ack_phase drv data ackFuel k with
    | (.error e, log, k₂) => (.error e, log, k₂)
    | (.ok answer, log, k₂) =>
      let rest := poll_phase drv (match_expect data matchLength) pollFuel k₂ answer
      (rest.1, log ++ rest.2.1, rest.2.2)

/-- Rust `Bllink::try_send` (`bllink.rs` lines 195-211): transmit until one
send is acknowledged; the returned payload is discarded. -/
def try_send (drv : Driver) (data : List Nat) :
    Nat → Nat → Except Err Unit × List (List Nat) × Nat
  | 0, k => (.error .noAckTimeout, [], k)
  | fuel + 1, k =>
    match drv k with
    | none => (.error .radioErr, [data], k + 1)
    | some (acked, _) =>
      if acked then (.ok (), [data], k + 1)
      else
        let rest := try_send drv data fuel (k + 1)
        (rest.1, data :: rest.2.1, rest.2.2)

/-- Result of a retry-wrapped public transport call. `unreachableHit` marks
the `unreachable!()` statement placed after the Rust retry loops
(`bllink.rs` lines 49, 69 and 191). -/
inductive Outcome (α : Type) where
  | ok (value : α)
  | err (e : Err)
  | unreachableHit
deriving DecidableEq

/-- Shared retry loop of `Bllink::request`, `Bllink::request_match_response`
and `Bllink::send_with_timeout` (`bllink.rs` lines 34-49, 54-69 and 178-191):
`for attempt in 0..MAX_RETRIES`, return the first success; at
`attempt == MAX_RETRIES - 1` wrap the last error as the retries-exhausted
error. The fuel counts the remaining loop iterations; the driver call index
is threaded through the attempts. -/
def retry_go {α : Type} (step : Nat → Nat → Except Err α × List (List Nat) × Nat) :
    Nat → Nat → Nat → Outcome α × List (List Nat)
  | 0, _, _ => (.unreachableHit, [])
  | fuel + 1, attempt, k =>
    match step attempt k with
    | (.ok r, log, _) => (.ok r, log)
    | (.error e, log, k₂) =>
      if attempt = MAX_RETRIES - 1 then (.err (.retriesExhausted e), log)
      else
        let rest := retry_go step fuel (attempt + 1) k₂
        (rest.1, log ++ rest.2)

/-- Entry point of the shared retry loop: attempt 0 with the full ceiling. -/
def retry_loop {α : Type} (step : Nat → Nat → Except Err α × List (List Nat) × Nat) :
    Outcome α × List (List Nat) :=
  retry_go step MAX_RETRIES 0 0

/-- Rust `Bllink::request` (`bllink.rs` lines 33-50). -/
def request (drv : Driver) (data : List Nat) (ackFuel pollFuel : Nat) :
    Outcome (List Nat) × List (List Nat) :=
  retry_loop (fun _ k => try_request drv data ackFuel pollFuel k)

/-- Rust `Bllink::request_match_response` (`bllink.rs` lines 53-70). -/
def request_match_response (drv : Driver) (data : List Nat)
    (matchLength ackFuel pollFuel : Nat) : Outcome (List Nat) × List (List Nat) :=
  retry_loop (fun _ k => try_request_match_response drv data matchLength ackFuel pollFuel k)

/-- Rust `Bllink::send_with_timeout` (`bllink.rs` lines 177-192). -/
def send_with_timeout (drv : Driver) (data : List Nat) (ackFuel : Nat) :
    Outcome Unit × List (List Nat) :=
  retry_loop (fun _ k => try_send drv data ackFuel k)

/-- Rust `Bllink::send` (`bllink.rs` lines 172-174): `send_with_timeout`
with the fixed 1 s budget, which the fuel parameter abstracts. -/
def send (drv : Driver) (data : List Nat) (ackFuel : Nat) :
    Outcome Unit × List (List Nat) :=
  send_with_timeout drv data ackFuel

/-! The bootloader command layer (`bootloader.rs`). -/

/-- Rust `CMD_*` constants (`bootloader.rs` lines 11-24) that the claims
use. -/
def CMD_SET_ADDRESS : Nat := 0x11
def CMD_LOAD_BUFFER : Nat := 0x14
def CMD_READ_FLASH : Nat := 0x1C
def CMD_RESET_INIT : Nat := 0xFF
def CMD_RESET : Nat := 0xF0
def CMD_ALLOFF : Nat := 0x01
def CMD_SYSOFF : Nat := 0x02
def CMD_SYSON : Nat := 0x03
def CMD_GETVBAT : Nat := 0x04

/-- Lift the outcome of a `bllink` call through the `?` operator: the value
is replaced by `()`, errors propagate. -/
def propagate {α : Type} (r : Outcome α × List (List Nat)) : Outcome Unit × List (List Nat) :=
  (match r.1 with
   | .ok _ => .ok ()
   | .err e => .err e
   | .unreachableHit => .unreachableHit, r.2)

/-- Rust `Bootloader::set_address` (`bootloader.rs` lines 69-74): builds
`[0xFF, target, 0x11] ++ address` and forwards the send error via `?`. -/
def set_address (drv : Driver) (target : Nat) (address : List Nat) (ackFuel : Nat) :
    Outcome Unit × List (List Nat) :=
  propagate (send drv ([0xff, target, CMD_SET_ADDRESS] ++ address) ackFuel)

/-- Wire frame built by `Bootloader::load_buffer` (`bootloader.rs` lines
88-91): command header followed by the little-endian page and address and
the raw data. -/
def load_buffer_command (target page address : Nat) (data : List Nat) : List Nat :=
  [0xff, target, CMD_LOAD_BUFFER] ++ toLe16 page ++ toLe16 address ++ data

/-- Rust `Bootloader::load_buffer` (`bootloader.rs` lines 83-96): rejects
payloads over 25 bytes before building any frame, otherwise performs the
fire-and-forget send of the load-buffer frame, forwarding its error. -/
def load_buffer (drv : Driver) (target page address : Nat) (data : List Nat)
    (ackFuel : Nat) : Outcome Unit × List (List Nat) :=
  if data.length > 25 then (.err .payloadTooLarge, [])
  else propagate (send drv (load_buffer_command target page address data) ackFuel)

/-- Rust `Bootloader::reset_init` (`bootloader.rs` lines 150-154): forwards
the send error via `?`. -/
def reset_init (drv : Driver) (target : Nat) (ackFuel : Nat) :
    Outcome Unit × List (List Nat) :=
  propagate (send drv [0xff, target, CMD_RESET_INIT] ackFuel)

/-- Rust `Bootloader::reset` (`bootloader.rs` lines 156-161): the send result
is discarded (`let _ = bllink.send(..)`), the call always reports `Ok(())`;
the frames are transmitted regardless. -/
def reset (drv : Driver) (target : Nat) (ackFuel : Nat) :
    Outcome Unit × List (List Nat) :=
  (.ok (), (send drv [0xff, target, CMD_RESET] ackFuel).2)

/-- Rust `Bootloader::all_off` (`bootloader.rs` lines 163-168): send result
discarded. -/
def all_off (drv : Driver) (target : Nat) (ackFuel : Nat) :
    Outcome Unit × List (List Nat) :=
  (.ok (), (send drv [0xff, target, CMD_ALLOFF] ackFuel).2)

/-- Rust `Bootloader::sys_off` (`bootloader.rs` lines 170-175): send result
discarded. -/
def sys_off (drv : Driver) (target : Nat) (ackFuel : Nat) :
    Outcome Unit × List (List Nat) :=
  (.ok (), (send drv [0xff, target, CMD_SYSOFF] ackFuel).2)

/-- Rust `Bootloader::sys_on` (`bootloader.rs` lines 177-182): send result
discarded. -/
def sys_on (drv : Driver) (target : Nat) (ackFuel : Nat) :
    Outcome Unit × List (List Nat) :=
  (.ok (), (send drv [0xff, target, CMD_SYSON] ackFuel).2)

/-- Outcome of the response-processing step of `Bootloader::get_vbat`. The
value carries the four response bytes fed to `f32::from_le_bytes` (a
bijection on 4-byte arrays, kept as raw bytes here). -/
inductive VbatResult where
  | ok (b0 b1 b2 b3 : Nat)
  | errInvalidVbatResponse
  | panicked
deriving DecidableEq

/-- Response-processing step of Rust `Bootloader::get_vbat` (`bootloader.rs`
lines 184-194) on the transport response: the guard rejects responses of
fewer than 4 bytes, then `[response[2], response[3], response[4],
response[5]]` is read — an index at or past the response length is a Rust
panic, which happens for responses of length 4 or 5. -/
def get_vbat_decode (response : List Nat) : VbatResult :=
  if response.length < 4 then .errInvalidVbatResponse
  else if response.length < 6 then .panicked
  else .ok (response.getD 2 0) (response.getD 3 0) (response.getD 4 0) (response.getD 5 0)

/-- Wire frame built by `Bootloader::get_vbat` (`bootloader.rs` line 185). -/
def get_vbat_command (target : Nat) : List Nat := [0xff, target, CMD_GETVBAT]

/-- Wire frame built by `Bootloader::read_flash` (`bootloader.rs` lines
126-128): command header followed by the little-endian page and address. -/
def read_flash_command (target page address : Nat) : List Nat :=
  [0xff, target, CMD_READ_FLASH] ++ toLe16 page ++ toLe16 address

/-- Outcome of the response-processing step of `Bootloader::read_flash`. -/
inductive ReadFlashResult where
  | ok (packet : FlashReadPacket)
  | errTooShort
  | errStale
  | panicked
deriving DecidableEq

/-- Response-processing step of Rust `Bootloader::read_flash` (`bootloader.rs`
lines 130-146) on the transport response: reject responses under 2 bytes,
decode a `FlashReadPacket` from `response[2..]` (a panic if that slice is
shorter than 5 bytes), then fail with the stale-packet error when the decoded
page or address differs from the requested one. -/
def read_flash_validate (page address : Nat) (response : List Nat) : ReadFlashResult :=
  if response.length < 2 then .errTooShort
  else
    match FlashReadPacket.from_bytes (response.drop 2) with
    | .panicked => .panicked
    | .ok p =>
      if p.page ≠ page ∨ p.address ≠ address then .errStale else .ok p

/-- The 22-byte example info response payload from the specification. -/
def info_example : List Nat :=
  [0x10, 0x80, 0x00, 0x01, 0x00, 0x28, 0x00, 0x04, 0x00] ++ List.replicate 12 0 ++ [0x01]

/-! Helper lemmas about the retry loop. -/

/-- When every attempt before `tgt` fails and attempt `tgt` succeeds with
`r`, the retry loop returns `r`. -/
theorem retry_go_ok {α : Type} (step : Nat → Nat → Except Err α × List (List Nat) × Nat)
    (tgt : Nat) (r : α)
    (hfail : ∀ i j, i < tgt → ∃ e, (step i j).1 = .error e)
    (hok : ∀ j, (step tgt j).1 = .ok r) :
    ∀ fuel attempt k, attempt + fuel = MAX_RETRIES → attempt ≤ tgt → tgt < MAX_RETRIES →
      (retry_go step fuel attempt k).1 = .ok r := by
  intro fuel
  induction fuel with
  | zero =>
    intro attempt k h1 h2 h3
    simp only [MAX_RETRIES] at h1 h3
    omega
  | succ n ih =>
    intro attempt k h1 h2 h3
    rcases hs : step attempt k with ⟨res, log, k₂⟩
    rcases Nat.lt_or_ge attempt tgt with hlt | hge
    · obtain ⟨e, he⟩ := hfail attempt k hlt
      rw [hs] at he
      have hres : res = .error e := he
      subst hres
      have hne : ¬ attempt = MAX_RETRIES - 1 := by
        simp only [MAX_RETRIES] at h3 ⊢
        omega
      simp only [retry_go, hs, hne, if_false]
      exact ih (attempt + 1) k₂ (by omega) (by omega) h3
    · have heq : attempt = tgt := Nat.le_antisymm h2 hge
      subst heq
      have hres0 := hok k
      rw [hs] at hres0
      have hres : res = .ok r := hres0
      subst hres
      simp [retry_go, hs]

/-- When all of the first `MAX_RETRIES` attempts fail and the last one fails
with `e`, the retry loop returns the retries-exhausted wrap of `e`. -/
theorem retry_go_exhausted {α : Type} (step : Nat → Nat → Except Err α × List (List Nat) × Nat)
    (e : Err)
    (hfail : ∀ i j, i < MAX_RETRIES - 1 → ∃ ei, (step i j).1 = .error ei)
    (hlast : ∀ j, (step (MAX_RETRIES - 1) j).1 = .error e) :
    ∀ fuel attempt k, attempt + fuel = MAX_RETRIES → 0 < fuel →
      (retry_go step fuel attempt k).1 = .err (.retriesExhausted e) := by
  intro fuel
  induction fuel with
  | zero =>
    intro attempt k h1 h2
    omega
  | succ n ih =>
    intro attempt k h1 _
    rcases hs : step attempt k with ⟨res, log, k₂⟩
    by_cases hat : attempt = MAX_RETRIES - 1
    · subst hat
      have hres0 := hlast k
      rw [hs] at hres0
      have hres : res = .error e := hres0
      subst hres
      simp [retry_go, hs]
    · have hlt : attempt < MAX_RETRIES - 1 := by
        simp only [MAX_RETRIES] at h1 hat ⊢
        omega
      obtain ⟨ei, hei⟩ := hfail attempt k hlt
      rw [hs] at hei
      have hres : res = .error ei := hei
      subst hres
      simp only [retry_go, hs, hat, if_false]
      exact ih (attempt + 1) k₂ (by omega) (by simp only [MAX_RETRIES] at h1 hat ⊢; omega)

/-- The statement after the retry loop (Rust `unreachable!()`) is never
reached when the loop starts with a positive iteration budget matching the
remaining attempts. -/
theorem retry_go_ne_unreachable {α : Type}
    (step : Nat → Nat → Except Err α × List (List Nat) × Nat) :
    ∀ fuel attempt k, attempt + fuel = MAX_RETRIES → 0 < fuel →
      (retry_go step fuel attempt k).1 ≠ .unreachableHit := by
  intro fuel
  induction fuel with
  | zero =>
    intro attempt k h1 h2
    omega
  | succ n ih =>
    intro attempt k h1 _
    rcases hs : step attempt k with ⟨res, log, k₂⟩
    cases res with
    | ok r => simp [retry_go, hs]
    | error e =>
      by_cases hat : attempt = MAX_RETRIES - 1
      · subst hat
        simp [retry_go, hs]
      · simp only [retry_go, hs, hat, if_false]
        exact ih (attempt + 1) k₂ (by omega) (by simp only [MAX_RETRIES] at h1 hat ⊢; omega)

/-- A step that always fails with `e` without transmitting makes the retry
loop fail with the retries-exhausted wrap of `e` without transmitting. -/
theorem retry_go_const_error {α : Type}
    (step : Nat → Nat → Except Err α × List (List Nat) × Nat) (e : Err)
    (hstep : ∀ a j, step a j = (.error e, [], j)) :
    ∀ fuel attempt k, attempt + fuel = MAX_RETRIES → 0 < fuel →
      retry_go step fuel attempt k = (.err (.retriesExhausted e), []) := by
  intro fuel
  induction fuel with
  | zero =>
    intro attempt k h1 h2
    omega
  | succ n ih =>
    intro attempt k h1 _
    by_cases hat : attempt = MAX_RETRIES - 1
    · subst hat
      simp [retry_go, hstep (MAX_RETRIES - 1) k]
    · simp only [retry_go, hstep attempt k, hat, if_false]
      rw [ih (attempt + 1) k (by omega) (by simp only [MAX_RETRIES] at h1 hat ⊢; omega)]
      simp

/-- Every frame the retry loop transmits comes from one of the attempts. -/
theorem retry_go_frames {α : Type}
    (step : Nat → Nat → Except Err α × List (List Nat) × Nat) (P : List Nat → Prop)
    (hstep : ∀ a j f, f ∈ (step a j).2.1 → P f) :
    ∀ fuel attempt k f, f ∈ (retry_go step fuel attempt k).2 → P f := by
  intro fuel
  induction fuel with
  | zero =>
    intro attempt k f hf
    simp [retry_go] at hf
  | succ n ih =>
    intro attempt k f hf
    rcases hs : step attempt k with ⟨res, log, k₂⟩
    have hlog : ∀ g, g ∈ log → P g := fun g hg => hstep attempt k g (by rw [hs]; exact hg)
    cases res with
    | ok r =>
      simp [retry_go, hs] at hf
      exact hlog f hf
    | error e =>
      by_cases hat : attempt = MAX_RETRIES - 1
      · subst hat
        simp [retry_go, hs] at hf
        exact hlog f hf
      · simp [retry_go, hs, hat] at hf
        rcases hf with hf | hf
        · exact hlog f hf
        · exact ih (attempt + 1) k₂ f hf

/-! Helper lemmas about the phases of one attempt. -/

/-- The only frame `try_send` ever transmits is its argument. -/
theorem try_send_frames (drv : Driver) (data : List Nat) :
    ∀ fuel k f, f ∈ (try_send drv data fuel k).2.1 → f = data := by
  intro fuel
  induction fuel with
  | zero =>
    intro k f hf
    simp [try_send] at hf
  | succ n ih =>
    intro k f hf
    rcases hd : drv k with _ | ⟨acked, response⟩
    · simp [try_send, hd] at hf
      exact hf
    · by_cases ha : acked
      · simp [try_send, hd, ha] at hf
        exact hf
      · simp [try_send, hd, ha] at hf
        rcases hf with hf | hf
        · exact hf
        · exact ih (k + 1) f hf

/-- A successful poll phase returns an answer satisfying the match
predicate. -/
theorem poll_phase_ok_expect (drv : Driver) (expect : List Nat → Bool) :
    ∀ fuel k answer a, (poll_phase drv expect fuel k answer).1 = .ok a →
      expect a = true := by
  intro fuel
  induction fuel with
  | zero =>
    intro k answer a h
    by_cases he : expect answer
    · simp [poll_phase, he] at h
      subst h
      exact he
    · simp [poll_phase, he] at h
  | succ n ih =>
    intro k answer a h
    by_cases he : expect answer
    · simp [poll_phase, he] at h
      subst h
      exact he
    · rcases hd : drv k with _ | ⟨acked, newAnswer⟩
      · simp [poll_phase, he, hd] at h
      · simp only [poll_phase, he, hd, if_false] at h
        exact ih (k + 1) (if acked then newAnswer else answer) a h

/-- With a driver that never reports a radio error, a failed poll phase
fails with the response-timeout error. -/
theorem poll_phase_error_kind (drv : Driver) (expect : List Nat → Bool)
    (hdrv : ∀ i, drv i ≠ none) :
    ∀ fuel k answer e, (poll_phase drv expect fuel k answer).1 = .error e →
      e = .responseTimeout := by
  intro fuel
  induction fuel with
  | zero =>
    intro k answer e h
    by_cases he : expect answer
    · simp [poll_phase, he] at h
    · simp [poll_phase, he] at h
      exact h.symm
  | succ n ih =>
    intro k answer e h
    by_cases he : expect answer
    · simp [poll_phase, he] at h
    · rcases hd : drv k with _ | ⟨acked, newAnswer⟩
      · exact absurd hd (hdrv k)
      · simp only [poll_phase, he, hd, if_false] at h
        exact ih (k + 1) (if acked then newAnswer else answer) e h

/-- With a driver that never reports a radio error, a failed ack phase fails
with the no-ack-timeout error. -/
theorem ack_phase_error_kind (drv : Driver) (data : List Nat)
    (hdrv : ∀ i, drv i ≠ none) :
    ∀ fuel k e, (ack_phase drv data fuel k).1 = .error e → e = .noAckTimeout := by
  intro fuel
  induction fuel with
  | zero =>
    intro k e h
    simp [ack_phase] at h
    exact h.symm
  | succ n ih =>
    intro k e h
    rcases hd : drv k with _ | ⟨acked, response⟩
    · exact absurd hd (hdrv k)
    · by_cases ha : acked
      · simp [ack_phase, hd, ha] at h
      · simp only [ack_phase, hd, ha, if_false] at h
        exact ih (k + 1) e h

/-- Every frame the poll phase transmits is the 1-byte `0xFF` poll frame. -/
theorem poll_phase_frames (drv : Driver) (expect : List Nat → Bool) :
    ∀ fuel k answer f, f ∈ (poll_phase drv expect fuel k answer).2.1 →
      f = [0xff] := by
  intro fuel
  induction fuel with
  | zero =>
    intro k answer f hf
    simp [poll_phase] at hf
  | succ n ih =>
    intro k answer f hf
    by_cases he : expect answer
    · simp [poll_phase, he] at hf
    · rcases hd : drv k with _ | ⟨acked, newAnswer⟩
      · simp [poll_phase, he, hd] at hf
        exact hf
      · simp only [poll_phase, he, hd, if_false] at hf
        simp at hf
        rcases hf with hf | hf
        · exact hf
        · exact ih (k + 1) (if acked then newAnswer else answer) f hf

/-! Claim theorems. -/

/-- Claim C1, counterexample: the claim states that decoding a too-short
buffer fails with a local `MalformedPacket` error kind and never panics; in
the code every decoder panics on a too-short buffer (there is no
`MalformedPacket` error value at all), shown here at explicit concrete
inputs of length 21, 4, 4 and 2. -/
theorem c1_short_decode_cex :
    InfoPacket.from_bytes (List.replicate 21 0) = .panicked
  ∧ BufferReadPacket.from_bytes (List.replicate 4 0) = .panicked
  ∧ FlashReadPacket.from_bytes (List.replicate 4 0) = .panicked
  ∧ FlashWriteResponse.from_bytes (List.replicate 2 0) = .panicked := by
  decide

/-- Claim C1, amended: for every decode operation and every buffer shorter
than its minimum length (22, 5, 5 and 3 bytes respectively), decoding
panics (process-fatal Rust `panic!`) rather than returning a local error
kind; the length check precedes every byte access, so a buffer of at least
the minimum length always decodes successfully and no out-of-bounds read
occurs. -/
theorem c1_short_decode_panics (bytes : List Nat) :
    (bytes.length < 22 → InfoPacket.from_bytes bytes = .panicked)
  ∧ (22 ≤ bytes.length → InfoPacket.from_bytes bytes ≠ .panicked)
  ∧ (bytes.length < 5 → BufferReadPacket.from_bytes bytes = .panicked)
  ∧ (5 ≤ bytes.length → BufferReadPacket.from_bytes bytes ≠ .panicked)
  ∧ (bytes.length < 5 → FlashReadPacket.from_bytes bytes = .panicked)
  ∧ (5 ≤ bytes.length → FlashReadPacket.from_bytes bytes ≠ .panicked)
  ∧ (bytes.length < 3 → FlashWriteResponse.from_bytes bytes = .panicked)
  ∧ (3 ≤ bytes.length → FlashWriteResponse.from_bytes bytes ≠ .panicked) := by
  refine ⟨fun h => by simp [InfoPacket.from_bytes, h],
          fun h => by simp [InfoPacket.from_bytes, Nat.not_lt.mpr h],
          fun h => by simp [BufferReadPacket.from_bytes, h],
          fun h => by simp [BufferReadPacket.from_bytes, Nat.not_lt.mpr h],
          fun h => by simp [FlashReadPacket.from_bytes, h],
          fun h => by simp [FlashReadPacket.from_bytes, Nat.not_lt.mpr h],
          fun h => by simp [FlashWriteResponse.from_bytes, h],
          fun h => by simp [FlashWriteResponse.from_bytes, Nat.not_lt.mpr h]⟩

/-- Claim C1, witness for the amended theorem at the 1-byte buffer `[0]`. -/
theorem c1_short_decode_panics_witness :
    InfoPacket.from_bytes [0] = .panicked ∧ FlashWriteResponse.from_bytes [0] = .panicked :=
  ⟨(c1_short_decode_panics [0]).1 (by decide),
   (c1_short_decode_panics [0]).2.2.2.2.2.2.1 (by decide)⟩

/-- Claim C2: the code is wrong on the claim's domain. The get-vbat request
to the STM32 target is `[0xFF, 0xFF, 0x04]`; the 4-byte response
`[0xFF, 0xFF, 0x04, 0x00]` is accepted by the transport's full-prefix match,
passes the code's own `len < 4` length guard, and then the read of
`response[4]` and `response[5]` panics out of bounds — instead of failing
with the invalid-vbat-response error the claim (and the guard's intent)
require. Responses of length 3 error out cleanly and responses of length at
least 6 decode the bytes at offsets 2 to 5. -/
theorem c2_get_vbat_short_response_panics :
    get_vbat_command 0xff = [0xff, 0xff, 0x04]
  ∧ (get_vbat_command 0xff).isPrefixOf [0xff, 0xff, 0x04, 0x00] = true
  ∧ get_vbat_decode [0xff, 0xff, 0x04, 0x00] = .panicked
  ∧ get_vbat_decode [0xff, 0xff, 0x04, 0x00, 0x00] = .panicked
  ∧ get_vbat_decode [0xff, 0xff, 0x04] = .errInvalidVbatResponse
  ∧ get_vbat_decode [0xff, 0xff, 0x04, 0x00, 0x00, 0x3f] = .ok 0x04 0x00 0x00 0x3f := by
  decide

/-- Claim C6: after a successful transport exchange, `read_flash` fails with
the stale-packet error whenever the decoded page or address differs from the
requested one, and returns the decoded packet only when both agree. -/
theorem c6_read_flash_stale_check (page address : Nat) (response : List Nat)
    (p : FlashReadPacket)
    (hdec : FlashReadPacket.from_bytes (response.drop 2) = .ok p) :
    (p.page ≠ page ∨ p.address ≠ address →
        read_flash_validate page address response = .errStale)
  ∧ (p.page = page ∧ p.address = address →
        read_flash_validate page address response = .ok p) := by
  have hlen : ¬ response.length < 2 := by
    by_contra hc
    have hd : response.length - 2 < 5 := by omega
    simp [FlashReadPacket.from_bytes, hd] at hdec
  constructor
  · intro hne
    simp [read_flash_validate, hlen, hdec, hne]
  · rintro ⟨hp, ha⟩
    simp [read_flash_validate, hlen, hdec, hp, ha]

/-- Claim C6, witness: the specification's stale example (requested page 3,
address 10; reply decoding to page 2, address 10) fails with the
stale-packet error, and the matching request returns the packet. -/
theorem c6_read_flash_stale_check_witness :
    read_flash_validate 3 10 [0xff, 0xff, 0x1c, 2, 0, 10, 0] = .errStale
  ∧ read_flash_validate 2 10 [0xff, 0xff, 0x1c, 2, 0, 10, 0] =
      .ok { page := 2, address := 10, data := [] } :=
  ⟨(c6_read_flash_stale_check 3 10 [0xff, 0xff, 0x1c, 2, 0, 10, 0]
      { page := 2, address := 10, data := [] } (by decide)).1 (by decide),
   (c6_read_flash_stale_check 2 10 [0xff, 0xff, 0x1c, 2, 0, 10, 0]
      { page := 2, address := 10, data := [] } (by decide)).2 (by decide)⟩

/-- Claim C7: a payload over 25 bytes makes `load_buffer` fail with the
payload-too-large error with no radio traffic at all; a payload of at most
25 bytes is sent through the fire-and-forget send as exactly the frame
`[0xFF, target, 0x14, page LE16, address LE16, data]`, and every frame that
reaches the radio is that frame. -/
theorem c7_load_buffer_size_guard (drv : Driver) (target page address ackFuel : Nat)
    (data : List Nat) :
    (25 < data.length →
        load_buffer drv target page address data ackFuel = (.err .payloadTooLarge, []))
  ∧ (data.length ≤ 25 →
        load_buffer_command target page address data =
          [0xff, target, 0x14, page % 256, page / 256 % 256,
           address % 256, address / 256 % 256] ++ data
      ∧ (load_buffer drv target page address data ackFuel).2 =
          (send drv (load_buffer_command target page address data) ackFuel).2
      ∧ ∀ f ∈ (load_buffer drv target page address data ackFuel).2,
          f = load_buffer_command target page address data) := by
  constructor
  · intro h
    simp [load_buffer, h]
  · intro h
    have h2 : ¬ data.length > 25 := by omega
    refine ⟨by simp [load_buffer_command, toLe16, CMD_LOAD_BUFFER], ?_, ?_⟩
    · simp [load_buffer, h2, propagate]
    · intro f hf
      simp only [load_buffer, h2, if_false, propagate] at hf
      simp only [send, send_with_timeout, retry_loop] at hf
      exact retry_go_frames _ (fun g => g = load_buffer_command target page address data)
        (fun a j g hg => try_send_frames drv _ ackFuel j g hg) MAX_RETRIES 0 0 f hf

/-- Claim C7, witness: a 26-byte chunk is rejected locally with no traffic,
and a 1-byte chunk delegates to the send with the exact frame. -/
theorem c7_load_buffer_size_guard_witness :
    load_buffer (fun _ => some (true, [])) 0xff 1 2 (List.replicate 26 0) 1 =
      (.err .payloadTooLarge, [])
  ∧ load_buffer_command 0xff 1 2 [9] = [0xff, 0xff, 0x14, 1, 0, 2, 0] ++ [9] :=
  ⟨(c7_load_buffer_size_guard (fun _ => some (true, [])) 0xff 1 2 1
      (List.replicate 26 0)).1 (by decide),
   ((c7_load_buffer_size_guard (fun _ => some (true, [])) 0xff 1 2 1 [9]).2 (by decide)).1⟩

/-- Claim C8: when the match length exceeds the request length, the single
attempt fails with the local invalid-argument error without any radio call,
and the public `request_match_response` surfaces that error (wrapped by the
standard retry ceiling) still without transmitting a single packet. -/
theorem c8_match_length_guard (drv : Driver) (data : List Nat)
    (matchLength ackFuel pollFuel k : Nat) (h : data.length < matchLength) :
    try_request_match_response drv data matchLength ackFuel pollFuel k =
      (.error .invalidArgument, [], k)
  ∧ request_match_response drv data matchLength ackFuel pollFuel =
      (.err (.retriesExhausted .invalidArgument), []) := by
  have hgt : data.length < matchLength := h
  constructor
  · simp [try_request_match_response, hgt]
  · unfold request_match_response retry_loop
    exact retry_go_const_error _ .invalidArgument
      (fun a j => by simp [try_request_match_response, hgt]) MAX_RETRIES 0 0 (by decide)
      (by decide)

/-- Claim C8, witness: match length 3 on a 2-byte request fails with the
invalid-argument error and the transmitted-frame log is empty. -/
theorem c8_match_length_guard_witness :
    request_match_response (fun _ => some (true, [0x42])) [1, 2] 3 1 1 =
      (.err (.retriesExhausted .invalidArgument), []) :=
  (c8_match_length_guard (fun _ => some (true, [0x42])) [1, 2] 3 1 1 0 (by decide)).2

/-- Claim C9: for every buffer of at least 22 bytes the info packet decodes
with page_size from bytes 1-2, n_buff_page from bytes 3-4, n_flash_page from
bytes 5-6, flash_start from bytes 7-8, cpu_id from bytes 9-20 and version
from byte 21, all multi-byte fields little-endian; the specification's
22-byte example decodes to page_size 128, n_buff_page 1, n_flash_page 40,
flash_start 4, version 1. -/
theorem c9_info_packet_layout :
    (∀ (bytes : List Nat) (p : InfoPacket), InfoPacket.from_bytes bytes = .ok p →
        p.page_size = bytes.getD 1 0 + 256 * bytes.getD 2 0
      ∧ p.n_buff_page = bytes.getD 3 0 + 256 * bytes.getD 4 0
      ∧ p.n_flash_page = bytes.getD 5 0 + 256 * bytes.getD 6 0
      ∧ p.flash_start = bytes.getD 7 0 + 256 * bytes.getD 8 0
      ∧ p.cpu_id = [bytes.getD 9 0, bytes.getD 10 0, bytes.getD 11 0, bytes.getD 12 0,
                    bytes.getD 13 0, bytes.getD 14 0, bytes.getD 15 0, bytes.getD 16 0,
                    bytes.getD 17 0, bytes.getD 18 0, bytes.getD 19 0, bytes.getD 20 0]
      ∧ p.version = bytes.getD 21 0)
  ∧ (∀ bytes : List Nat, 22 ≤ bytes.length → ∃ p, InfoPacket.from_bytes bytes = .ok p)
  ∧ InfoPacket.from_bytes info_example =
      .ok { page_size := 128, n_buff_page := 1, n_flash_page := 40, flash_start := 4,
            cpu_id := List.replicate 12 0, version := 1 } := by
  refine ⟨?_, ?_, by decide⟩
  · intro bytes p h
    by_cases hl : bytes.length < 22
    · simp [InfoPacket.from_bytes, hl] at h
    · simp only [InfoPacket.from_bytes, hl, if_false] at h
      have hp : { page_size := u16le (bytes.getD 1 0) (bytes.getD 2 0),
                  n_buff_page := u16le (bytes.getD 3 0) (bytes.getD 4 0),
                  n_flash_page := u16le (bytes.getD 5 0) (bytes.getD 6 0),
                  flash_start := u16le (bytes.getD 7 0) (bytes.getD 8 0),
                  cpu_id := [bytes.getD 9 0, bytes.getD 10 0, bytes.getD 11 0, bytes.getD 12 0,
                             bytes.getD 13 0, bytes.getD 14 0, bytes.getD 15 0, bytes.getD 16 0,
                             bytes.getD 17 0, bytes.getD 18 0, bytes.getD 19 0, bytes.getD 20 0],
                  version := bytes.getD 21 0 : InfoPacket } = p := by
        injection h
      subst hp
      simp [u16le]
  · intro bytes h
    have hnp : InfoPacket.from_bytes bytes ≠ .panicked := by
      simp [InfoPacket.from_bytes, Nat.not_lt.mpr h]
    cases hfb : InfoPacket.from_bytes bytes with
    | ok p => exact ⟨p, rfl⟩
    | panicked => exact absurd hfb hnp

/-- Claim C9, witness: the field-layout part applied at the specification's
example buffer. -/
theorem c9_info_packet_layout_witness :
    ({ page_size := 128, n_buff_page := 1, n_flash_page := 40, flash_start := 4,
       cpu_id := List.replicate 12 0, version := 1 } : InfoPacket).page_size =
      info_example.getD 1 0 + 256 * info_example.getD 2 0 :=
  (c9_info_packet_layout.1 info_example
    { page_size := 128, n_buff_page := 1, n_flash_page := 40, flash_start := 4,
      cpu_id := List.replicate 12 0, version := 1 } (by decide)).1

/-- Claim C3, counterexample: the claim states that every fire-and-forget
operation returns the send error after the retry ceiling; with a driver that
never acknowledges, the send of the reset frame fails with the
retries-exhausted wrap of the no-ack timeout, yet `reset` (and likewise
`all_off`, `sys_off`, `sys_on`) reports success. -/
theorem c3_reset_swallows_error_cex :
    (send (fun _ => some (false, [])) [0xff, 0xfe, CMD_RESET] 1).1 =
      .err (.retriesExhausted .noAckTimeout)
  ∧ (reset (fun _ => some (false, [])) 0xfe 1).1 = .ok ()
  ∧ (send (fun _ => some (false, [])) [0xff, 0xff, CMD_ALLOFF] 1).1 =
      .err (.retriesExhausted .noAckTimeout)
  ∧ (all_off (fun _ => some (false, [])) 0xff 1).1 = .ok ()
  ∧ (sys_off (fun _ => some (false, [])) 0xff 1).1 = .ok ()
  ∧ (sys_on (fun _ => some (false, [])) 0xff 1).1 = .ok () := by
  decide

/-- Claim C3, amended: among the fire-and-forget operations only
`set_address`, `load_buffer` and `reset_init` propagate a failed send to
their caller; `reset`, `all_off`, `sys_off` and `sys_on` discard the send
result and always report success. -/
theorem c3_fire_and_forget_propagation (drv : Driver)
    (target page address ackFuel : Nat) (addr5 data : List Nat) (e : Err) :
    ((send drv ([0xff, target, CMD_SET_ADDRESS] ++ addr5) ackFuel).1 = .err e →
        (set_address drv target addr5 ackFuel).1 = .err e)
  ∧ (data.length ≤ 25 →
        (send drv (load_buffer_command target page address data) ackFuel).1 = .err e →
        (load_buffer drv target page address data ackFuel).1 = .err e)
  ∧ ((send drv [0xff, target, CMD_RESET_INIT] ackFuel).1 = .err e →
        (reset_init drv target ackFuel).1 = .err e)
  ∧ (reset drv target ackFuel).1 = .ok ()
  ∧ (all_off drv target ackFuel).1 = .ok ()
  ∧ (sys_off drv target ackFuel).1 = .ok ()
  ∧ (sys_on drv target ackFuel).1 = .ok () := by
  refine ⟨?_, ?_, ?_, rfl, rfl, rfl, rfl⟩
  · intro h
    have h2 : (send drv (0xff :: target :: CMD_SET_ADDRESS :: addr5) ackFuel).1 = .err e := by
      simpa using h
    simp [set_address, propagate, h2]
  · intro hlen h
    have h2 : ¬ data.length > 25 := by omega
    simp [load_buffer, h2, propagate, h]
  · intro h
    simp [reset_init, propagate, h]

/-- Claim C3, witness for the amended theorem: with a driver that never
acknowledges, `set_address` surfaces the send failure while `reset` still
reports success. -/
theorem c3_fire_and_forget_propagation_witness :
    (set_address (fun _ => some (false, [])) 0xfe [1, 2, 3, 4, 5] 1).1 =
      .err (.retriesExhausted .noAckTimeout)
  ∧ (reset (fun _ => some (false, [])) 0xfe 1).1 = .ok () :=
  ⟨(c3_fire_and_forget_propagation (fun _ => some (false, [])) 0xfe 0 0 1 [1, 2, 3, 4, 5] []
      (.retriesExhausted .noAckTimeout)).1 (by decide),
   (c3_fire_and_forget_propagation (fun _ => some (false, [])) 0xfe 0 0 1 [1, 2, 3, 4, 5] []
      (.retriesExhausted .noAckTimeout)).2.2.2.1⟩

/-- Claim C4: the shared retry loop behind `request`,
`request_match_response` and `send_with_timeout` performs at most
`MAX_RETRIES` (10) whole attempts: when the first `tgt < 10` attempts fail
and attempt `tgt` succeeds, the call returns that success; when all 10
attempts fail, the call returns the retries-exhausted wrap of the last
attempt's error; and for every step function the `unreachable!()` after the
loop is never executed. -/
theorem c4_retry_ceiling {α : Type}
    (step : Nat → Nat → Except Err α × List (List Nat) × Nat) :
    (∀ tgt r, tgt < MAX_RETRIES →
        (∀ i j, i < tgt → ∃ e, (step i j).1 = .error e) →
        (∀ j, (step tgt j).1 = .ok r) →
        (retry_loop step).1 = .ok r)
  ∧ (∀ e, (∀ i j, i < MAX_RETRIES - 1 → ∃ ei, (step i j).1 = .error ei) →
        (∀ j, (step (MAX_RETRIES - 1) j).1 = .error e) →
        (retry_loop step).1 = .err (.retriesExhausted e))
  ∧ (retry_loop step).1 ≠ .unreachableHit := by
  refine ⟨?_, ?_, ?_⟩
  · intro tgt r h1 h2 h3
    exact retry_go_ok step tgt r h2 h3 MAX_RETRIES 0 0 (by decide) (Nat.zero_le _) h1
  · intro e h1 h2
    exact retry_go_exhausted step e h1 h2 MAX_RETRIES 0 0 (by decide) (by decide)
  · exact retry_go_ne_unreachable step MAX_RETRIES 0 0 (by decide) (by decide)

/-- Claim C4, witness: a step failing on attempts 0-2 and succeeding on
attempt 3 yields that success; a step failing on every attempt yields the
retries-exhausted wrap of the last failure. -/
theorem c4_retry_ceiling_witness :
    (retry_loop (fun a k =>
        if a < 3 then ((.error .noAckTimeout : Except Err (List Nat)), [], k)
        else (.ok [0x42], [], k))).1 = .ok [0x42]
  ∧ (retry_loop (fun _ k =>
        ((.error .noAckTimeout : Except Err (List Nat)), [], k))).1 =
      .err (.retriesExhausted .noAckTimeout) :=
  ⟨(c4_retry_ceiling _).1 3 [0x42] (by decide)
      (fun i j hi => ⟨.noAckTimeout, by simp [hi]⟩)
      (fun j => by norm_num),
   (c4_retry_ceiling _).2.1 .noAckTimeout
      (fun i j _ => ⟨.noAckTimeout, rfl⟩)
      (fun j => rfl)⟩

/-- Claim C5: with the full-prefix strategy, a successful attempt returns an
answer that starts with the full request bytes; every frame the poll phase
transmits is the 1-byte `0xFF` poll frame, which for any request of at
least 2 bytes is never the original request; an acknowledged payload that
does not start with the request is discarded (it becomes the new candidate
and polling continues); with a driver that never reports a radio error a
failed attempt fails with the no-ack timeout or the response timeout, every
poll-phase failure is exactly the response-timeout error, exhausting the
poll-phase time budget without a matching candidate fails with precisely
the response-timeout error, and an attempt whose ack phase succeeded can
only fail with the response timeout. -/
theorem c5_full_match_polling (drv : Driver) (data : List Nat)
    (hdrv : ∀ i, drv i ≠ none) :
    (∀ ackFuel pollFuel k answer log k₂,
        try_request drv data ackFuel pollFuel k = (.ok answer, log, k₂) →
        data <+: answer)
  ∧ (∀ pollFuel k answer f,
        f ∈ (poll_phase drv (fun a => data.isPrefixOf a) pollFuel k answer).2.1 →
        f = [0xff])
  ∧ (2 ≤ data.length →
        ∀ pollFuel k answer f,
          f ∈ (poll_phase drv (fun a => data.isPrefixOf a) pollFuel k answer).2.1 →
          f ≠ data)
  ∧ (∀ pollFuel k answer newAnswer,
        data.isPrefixOf answer = false → drv k = some (true, newAnswer) →
        poll_phase drv (fun a => data.isPrefixOf a) (pollFuel + 1) k answer =
          ((poll_phase drv (fun a => data.isPrefixOf a) pollFuel (k + 1) newAnswer).1,
           [0xff] :: (poll_phase drv (fun a => data.isPrefixOf a) pollFuel (k + 1) newAnswer).2.1,
           (poll_phase drv (fun a => data.isPrefixOf a) pollFuel (k + 1) newAnswer).2.2))
  ∧ (∀ ackFuel pollFuel k e log k₂,
        try_request drv data ackFuel pollFuel k = (.error e, log, k₂) →
        e = .noAckTimeout ∨ e = .responseTimeout)
  ∧ (∀ pollFuel k answer e,
        (poll_phase drv (fun a => data.isPrefixOf a) pollFuel k answer).1 = .error e →
        e = .responseTimeout)
  ∧ (∀ k answer, data.isPrefixOf answer = false →
        poll_phase drv (fun a => data.isPrefixOf a) 0 k answer =
          (.error .responseTimeout, [], k))
  ∧ (∀ ackFuel pollFuel k answer alog k₁ e log k₂,
        ack_phase drv data ackFuel k = (.ok answer, alog, k₁) →
        try_request drv data ackFuel pollFuel k = (.error e, log, k₂) →
        e = .responseTimeout) := by
  refine ⟨?_, ?_, ?_, ?_, ?_, ?_, ?_, ?_⟩
  · intro ackFuel pollFuel k answer log k₂ h
    rcases ha : ack_phase drv data ackFuel k with ⟨res, alog, k₁⟩
    cases res with
    | error e => simp [try_request, ha] at h
    | ok ans0 =>
      simp only [try_request, ha] at h
      have hpoll : (poll_phase drv (fun a => data.isPrefixOf a) pollFuel k₁ ans0).1 =
          .ok answer := congrArg Prod.fst h
      exact List.isPrefixOf_iff_prefix.mp
        (poll_phase_ok_expect drv _ pollFuel k₁ ans0 answer hpoll)
  · exact fun pollFuel k answer f hf => poll_phase_frames drv _ pollFuel k answer f hf
  · intro hlen pollFuel k answer f hf heq
    have hfv := poll_phase_frames drv _ pollFuel k answer f hf
    have hd : data = [0xff] := by rw [← heq, hfv]
    rw [hd] at hlen
    simp at hlen
  · intro pollFuel k answer newAnswer hne hk
    simp [poll_phase, hne, hk]
  · intro ackFuel pollFuel k e log k₂ h
    rcases ha : ack_phase drv data ackFuel k with ⟨res, alog, k₁⟩
    cases res with
    | error e0 =>
      simp only [try_request, ha] at h
      have h1 : (Except.error e0 : Except Err (List Nat)) = .error e := congrArg Prod.fst h
      have he : e0 = e := by injection h1
      subst he
      exact Or.inl (ack_phase_error_kind drv data hdrv ackFuel k e0 (by rw [ha]))
    | ok ans0 =>
      simp only [try_request, ha] at h
      have hpoll : (poll_phase drv (fun a => data.isPrefixOf a) pollFuel k₁ ans0).1 =
          .error e := congrArg Prod.fst h
      exact Or.inr (poll_phase_error_kind drv _ hdrv pollFuel k₁ ans0 e hpoll)
  · intro pollFuel k answer e h
    exact poll_phase_error_kind drv _ hdrv pollFuel k answer e h
  · intro k answer hne
    simp [poll_phase, hne]
  · intro ackFuel pollFuel k answer alog k₁ e log k₂ hack h
    simp only [try_request, hack] at h
    exact poll_phase_error_kind drv _ hdrv pollFuel k₁ answer e (congrArg Prod.fst h)

/-- Claim C5, witness: the success case applied at a concrete driver whose
first exchange is acknowledged with a reply extending the request. -/
theorem c5_full_match_polling_witness : [5, 6] <+: [5, 6, 7] :=
  (c5_full_match_polling (fun _ => some (true, [5, 6, 7])) [5, 6]
      (fun _ h => Option.noConfusion h)).1 1 1 0 [5, 6, 7] [[5, 6]] 1 (by decide)

/-- Claim C10: every response accepted by the transport's full-prefix match
for a read-flash request starts with the 7-byte request frame, hence has at
least 7 bytes, the flash-read decode of `response[2..]` cannot fail on
length, the decoded page and address are exactly the requested ones, and
the stale-packet branch of `read_flash` is therefore unreachable after a
successful transport exchange. -/
theorem c10_read_flash_match_fresh (target page address : Nat) (response : List Nat)
    (hp : page < 65536) (ha : address < 65536)
    (hpre : read_flash_command target page address <+: response) :
    7 ≤ response.length
  ∧ FlashReadPacket.from_bytes (response.drop 2) =
      .ok { page := page, address := address, data := response.drop 7 }
  ∧ read_flash_validate page address response =
      .ok { page := page, address := address, data := response.drop 7 } := by
  obtain ⟨rest, hr⟩ := hpre
  have hcmd : read_flash_command target page address =
      [0xff, target, 0x1c, page % 256, page / 256 % 256,
       address % 256, address / 256 % 256] := by
    simp [read_flash_command, toLe16, CMD_READ_FLASH]
  rw [hcmd] at hr
  subst hr
  have hpage : page % 256 + 256 * (page / 256 % 256) = page := by omega
  have haddr : address % 256 + 256 * (address / 256 % 256) = address := by omega
  have hfb : FlashReadPacket.from_bytes
      (([0xff, target, 0x1c, page % 256, page / 256 % 256,
         address % 256, address / 256 % 256] ++ rest).drop 2) =
      .ok { page := page, address := address, data := rest } := by
    show FlashReadPacket.from_bytes
        (0x1c :: page % 256 :: page / 256 % 256 :: address % 256 ::
          address / 256 % 256 :: rest) = _
    simp [FlashReadPacket.from_bytes, u16le, hpage, haddr]
  refine ⟨by simp, hfb, ?_⟩
  unfold read_flash_validate
  rw [if_neg (by simp)]
  rw [hfb]
  simp

/-- Claim C10, witness: a concrete prefix-matched response to the request
for page 3, address 10 on the STM32 target decodes freshly and passes the
stale check. -/
theorem c10_read_flash_match_fresh_witness :
    read_flash_validate 3 10 ([0xff, 0xff, 0x1c, 3, 0, 10, 0] ++ [1, 2]) =
      .ok { page := 3, address := 10, data := [1, 2] } :=
  (c10_read_flash_match_fresh 0xff 3 10 ([0xff, 0xff, 0x1c, 3, 0, 10, 0] ++ [1, 2])
      (by decide) (by decide) (by decide)).2.2

end Cfloader
